import Mathlib

/-!
Verification of the geometric helper module `qiskit_metal/draw/utility.py`.

Shallow embedding conventions used throughout this file:

* Python floats are modelled by exact rationals `ℚ` on the input side; values
  produced by square roots and trigonometric functions live in `ℝ`.
* IEEE NaN (which arises in the source from `0.0/0.0`) is modelled by the
  two-constructor type `EF` (`nan` or an ordinary value).
* Fallible Python code (`assert`, `raise`) is modelled with `Except PyErr`.
* Machine epsilon `np.finfo(float).eps` is exactly `2 ^ (-52)`.
-/

/-- Kinds of Python exceptions raised by the code under verification.
`assertionError` models a failed `assert` statement, `typeError` a `TypeError`,
`valueError` a `ValueError` (e.g. unpacking an empty tuple), and `exception`
the bare `raise Exception(...)` used by `vec_unit_planar` for a vector whose
length is neither 2 nor 3 (the spec's InvalidDimension). -/
inductive PyErr where
  | assertionError
  | typeError
  | valueError
  | exception
deriving DecidableEq

/-- Machine epsilon of IEEE double precision floats: `np.finfo(float).eps = 2 ** (-52)`. -/
def eps : ℚ := 1 / 2 ^ 52

/-- Model of `np.isclose(a, b, rtol=rtol, atol=atol)` on scalars, which numpy
documents as `absolute(a - b) <= (atol + rtol * absolute(b))`. -/
def isclose (a b rtol atol : ℚ) : Bool := decide (|a - b| ≤ atol + rtol * |b|)

/-- Model of `array_chop(vec, zero=0, rtol=0, machine_tol=100)`
(`utility.py` lines 176-185): `mask = np.isclose(vec, zero, rtol=rtol,
atol=machine_tol*eps); vec[mask] = 0`.  Masked entries are set to the literal
float `0`, all other entries are returned unchanged.  The source's keyword
defaults (`zero=0, rtol=0, machine_tol=100`) are passed explicitly by the
callers modelled below. -/
def array_chop (vec : List ℚ) (zero rtol machine_tol : ℚ) : List ℚ :=
  vec.map (fun x => if isclose x zero rtol (machine_tol * eps) then 0 else x)

/-- Sum of the squares of the entries of a vector (the radicand of the
Euclidean norm). -/
def sumSq (v : List ℚ) : ℚ := (v.map (fun x => x ^ 2)).sum

/-- Model of `numpy.linalg.norm` on a rational vector: the exact Euclidean
norm `sqrt (Σ xᵢ²)`, as a real number. -/
noncomputable def normQ (v : List ℚ) : ℝ := Real.sqrt ((sumSq v : ℚ) : ℝ)

/-- Euclidean norm of a vector of reals (used for the outputs of
`vec_unit_planar`, whose entries are real). -/
noncomputable def normR (v : List ℝ) : ℝ := Real.sqrt ((v.map (fun x => x ^ 2)).sum)

/-- Model of `Vector.is_zero(vec, tol=100)` (`utility.py` lines 424-439):
`float(norm(vec)) < tol * np.finfo(float).eps`.  The source default
`tol=100` is passed explicitly by callers. -/
def Vector.is_zero (vec : List ℚ) (tol : ℚ) : Prop := normQ vec < (tol : ℝ) * (eps : ℝ)

/-- The norm comparison of `Vector.is_zero` is decidable because for a
rational vector `sqrt s < t` holds iff `0 < t` and `s < t²`. -/
instance instDecidableIsZero (vec : List ℚ) (tol : ℚ) : Decidable (Vector.is_zero vec tol) :=
  decidable_of_iff (0 < tol * eps ∧ sumSq vec < (tol * eps) ^ 2) (by
    unfold Vector.is_zero normQ
    constructor
    · rintro ⟨h1, h2⟩
      have h0 : (0 : ℝ) < (tol : ℝ) * (eps : ℝ) := by exact_mod_cast h1
      rw [Real.sqrt_lt' h0]
      exact_mod_cast h2
    · intro h
      have h0 : (0 : ℝ) < (tol : ℝ) * (eps : ℝ) :=
        lt_of_le_of_lt (Real.sqrt_nonneg _) h
      refine ⟨by exact_mod_cast h0, ?_⟩
      have h2 := (Real.sqrt_lt' h0).mp h
      push_cast at h2
      exact_mod_cast h2)

/-- Componentwise difference `v1 - v2` of two numpy arrays (of equal length
wherever the source calls it). -/
def listSub (v1 v2 : List ℚ) : List ℚ := List.zipWith (fun a b => a - b) v1 v2

/-- Model of `Vector.are_same(v1, v2, tol=100)` (`utility.py` lines 405-422):
`Vector.is_zero(v1 - v2, tol=tol)`. -/
def Vector.are_same (v1 v2 : List ℚ) (tol : ℚ) : Prop :=
  Vector.is_zero (listSub v1 v2) tol

instance instDecidableAreSame (v1 v2 : List ℚ) (tol : ℚ) :
    Decidable (Vector.are_same v1 v2 tol) :=
  instDecidableIsZero (listSub v1 v2) tol

/-- The real norm of a rational vector vanishes iff its sum of squares does
(used to decide the source's `norm(...) == 0` style tests exactly). -/
instance instDecidableNormQEqZero (v : List ℚ) : Decidable (normQ v = 0) :=
  decidable_of_iff (sumSq v = 0) (by
    unfold normQ
    constructor
    · intro h; rw [h]; simp
    · intro h
      have hnn : (0 : ℝ) ≤ (sumSq v : ℝ) := by
        have : (0 : ℚ) ≤ sumSq v := by
          unfold sumSq
          apply List.sum_nonneg
          intro x hx
          obtain ⟨y, _, rfl⟩ := List.mem_map.mp hx
          positivity
        exact_mod_cast this
      have := (Real.sqrt_eq_zero hnn).mp h
      exact_mod_cast this)

/-- The two-component branch of `vec_unit_planar` (`utility.py` lines
233-240), taking the already-chopped components: when the norm is zero
(`not bool(_norm)`, which for a float norm happens exactly when the sum of
squares is `0`; components surviving the chop are at least `100·eps` in
magnitude, so no underflow can occur in the squares) the chopped vector is
returned unchanged with only a debug diagnostic; otherwise the vector is
divided by its norm. -/
noncomputable def vec_unit_planar_core (x y : ℚ) : Except PyErr (List ℝ) :=
  if sumSq [x, y] = 0 then Except.ok [(x : ℝ), (y : ℝ)]
  else Except.ok [(x : ℝ) / normQ [x, y], (y : ℝ) / normQ [x, y]]

/-- Model of `vec_unit_planar(vector)` (`utility.py` lines 216-247).
The source first applies `array_chop` (with its defaults `zero=0, rtol=0,
machine_tol=100`), then dispatches on the length of the chopped vector:
length 2 is `vec_unit_planar_core`; length 3 recurses as
`vec_unit_planar(vector[:2])` on the first two (already chopped) components
and appends the (chopped) third component; any other length raises
`Exception('You did not give a 2 or 3 vec')`, modelled as
`PyErr.exception`.  The single level of recursion is unrolled here
(chopping a pair yields a pair, so the recursive call always lands in the
two-component branch); the theorem `vec_unit_planar_source_equation` below
proves this definition satisfies the source's recursion verbatim. -/
noncomputable def vec_unit_planar (vector : List ℚ) : Except PyErr (List ℝ) :=
  match array_chop vector 0 0 100 with
  | [x, y] => vec_unit_planar_core x y
  | [x, y, z] =>
      match (match array_chop [x, y] 0 0 100 with
             | [a, b] => vec_unit_planar_core a b
             | _ => Except.error PyErr.exception) with
      | Except.ok v2 => Except.ok (v2 ++ [(z : ℝ)])
      | Except.error e => Except.error e
  | _ => Except.error PyErr.exception

/-- Model of `Vector.rotate(xy, radians)` (`utility.py` lines 293-310):
counter-clockwise rotation of a 2D vector about the origin,
`(cos θ · x - sin θ · y, sin θ · x + cos θ · y)`. -/
noncomputable def Vector.rotate (xy : ℝ × ℝ) (radians : ℝ) : ℝ × ℝ :=
  (Real.cos radians * xy.1 - Real.sin radians * xy.2,
   Real.sin radians * xy.1 + Real.cos radians * xy.2)

/-- Dot product `np.dot` of two real vectors of equal length. -/
def dotR (v1 v2 : List ℝ) : ℝ := (List.zipWith (fun a b => a * b) v1 v2).sum

/-- Model of `Vector.angle_between(v1, v2)` (`utility.py` lines 346-360):
`arccos(np.clip(np.dot(v1_u, v2_u), -1.0, 1.0))` where `v1_u, v2_u` are the
planar-unit versions of the inputs; an exception raised by
`vec_unit_planar` propagates. -/
noncomputable def Vector.angle_between (v1 v2 : List ℚ) : Except PyErr ℝ :=
  match vec_unit_planar v1, vec_unit_planar v2 with
  | Except.ok u1, Except.ok u2 =>
      Except.ok (Real.arccos (min (max (dotR u1 u2) (-1)) 1))
  | Except.error e, _ => Except.error e
  | _, Except.error e => Except.error e

/-- Extended float value: either an ordinary (exact real) value or IEEE NaN.
NaN arises in the source from the division `0.0 / 0.0` in
`two_points_described` when the two points coincide.  IEEE division of a
nonzero float by zero yields ±infinity rather than NaN; in
`two_points_described` the denominator is the norm of the numerator vector,
so a zero denominator forces both numerators to be zero and only the
`0/0 = NaN` case is reachable — division of a nonzero value by zero is
therefore modelled coarsely as NaN as well. -/
inductive EF where
  | nan
  | val (x : ℝ)

/-- Float multiplication with NaN propagation. -/
noncomputable def EF.mul : EF → EF → EF
  | EF.val a, EF.val b => EF.val (a * b)
  | _, _ => EF.nan

/-- Float subtraction with NaN propagation. -/
noncomputable def EF.sub : EF → EF → EF
  | EF.val a, EF.val b => EF.val (a - b)
  | _, _ => EF.nan

/-- Float addition with NaN propagation. -/
noncomputable def EF.add : EF → EF → EF
  | EF.val a, EF.val b => EF.val (a + b)
  | _, _ => EF.nan

/-- Float division with NaN propagation; division by zero yields NaN
(see the comment on `EF`). -/
noncomputable def EF.div : EF → EF → EF
  | EF.val a, EF.val b => if b = 0 then EF.nan else EF.val (a / b)
  | _, _ => EF.nan

/-- Model of `np.round(x, decimals=11)` on an ordinary value: round to 11
decimal places (numpy's round-half-to-even differs from `round` only at
exact midpoints, which are not hit by any statement below); NaN rounds
to NaN. -/
noncomputable def EF.round11 : EF → EF
  | EF.val x => EF.val (((round (x * 10 ^ 11) : ℤ) : ℝ) / 10 ^ 11)
  | EF.nan => EF.nan

/-- The formula of `Vector.rotate` evaluated on possibly-NaN components
(as happens inside `two_points_described` when the unit vector is NaN). -/
noncomputable def rotateEF (xy : EF × EF) (radians : ℝ) : EF × EF :=
  (EF.sub (EF.mul (EF.val (Real.cos radians)) xy.1) (EF.mul (EF.val (Real.sin radians)) xy.2),
   EF.add (EF.mul (EF.val (Real.sin radians)) xy.1) (EF.mul (EF.val (Real.cos radians)) xy.2))

/-- Return value of `Vector.two_points_described`: the displacement vector,
the unit direction, the rounded tangent, and whether the zero-length
diagnostic (`logger.debug`) was emitted. -/
structure TwoPtsDesc where
  distance_vec : ℚ × ℚ
  unit_vec : EF × EF
  tangent_vec : EF × EF
  warned : Bool

/-- Model of `Vector.two_points_described(points2D)` (`utility.py` lines
441-472): asserts exactly two points, computes `distance_vec = end - start`,
`unit_vec = distance_vec / norm(distance_vec)` (which is `0/0 = NaN`
componentwise when the points coincide), the tangent
`np.round(Vector.rotate(unit_vec, np.pi/2), decimals=11)`, and logs a
diagnostic when `Vector.is_zero(distance_vec)`; it then returns the three
vectors — there is no failure path for coincident points. -/
noncomputable def Vector.two_points_described (points2D : List (ℚ × ℚ)) :
    Except PyErr TwoPtsDesc :=
  match points2D with
  | [start, stop] =>
      let dv : ℚ × ℚ := (stop.1 - start.1, stop.2 - start.2)
      let nrm : ℝ := normQ [dv.1, dv.2]
      let unit_vec : EF × EF :=
        (EF.div (EF.val (dv.1 : ℝ)) (EF.val nrm), EF.div (EF.val (dv.2 : ℝ)) (EF.val nrm))
      let rot := rotateEF unit_vec (Real.pi / 2)
      Except.ok ⟨dv, unit_vec, (EF.round11 rot.1, EF.round11 rot.2),
                 decide (Vector.is_zero [dv.1, dv.2] 100)⟩
  | _ => Except.error PyErr.assertionError

/-- Model of `Vector.normed(vec)` (`utility.py` lines 381-391).  The body is
`return Vec2D / norm(Vec2D)`: it divides the module-level type alias
`Vec2D = Union[list, np.ndarray]` by its own norm instead of using the
argument `vec`, and evaluating `norm` / `/` on the `typing.Union` object
raises a `TypeError` on every call, independently of `vec`.  The call is
therefore modelled as the constant error. -/
def Vector.normed (vec : List ℚ) : Except PyErr (List ℝ) := Except.error PyErr.typeError

/-- Componentwise difference of two 2D points,
`array(p) - array(q)` in the source of `remove_colinear_pts`. -/
def vsub2 (p q : ℚ × ℚ) : List ℚ := [p.1 - q.1, p.2 - q.2]

/-- Classical decidability for the branch `Vector.angle_between(v1, v2) == 0`
of `remove_colinear_pts` (Python compares two computed floats; the branch is
modelled with classical choice, no effective decision procedure is needed). -/
noncomputable instance instDecAngleBetweenEqZero (v1 v2 : List ℚ) :
    Decidable (Vector.angle_between v1 v2 = Except.ok 0) :=
  Classical.propDecidable _

/-- Helper for `np.delete(l, idx, axis=0)`: walk the list keeping a running
position counter `i`, dropping exactly the entries whose position occurs
in `idx`. -/
def npDeleteFrom (idx : List ℕ) : ℕ → List α → List α
  | _, [] => []
  | i, a :: t =>
      if i ∈ idx then npDeleteFrom idx (i + 1) t
      else a :: npDeleteFrom idx (i + 1) t

/-- Model of `np.delete(l, idx, axis=0)`: remove the entries of `l` whose
index is listed in `idx`, preserving the order of the rest. -/
def npDelete (l : List α) (idx : List ℕ) : List α := npDeleteFrom idx 0 l

/-- The indices marked for removal by the first pass of
`remove_colinear_pts` (`utility.py` lines 192-199): for each
`i in range(2, len(points))`, with `v1 = points[i-2] - points[i-1]` and
`v2 = points[i-1] - points[i]`, the index `i-1` is marked when
`Vector.are_same(v1, v2)` or (`elif`) `Vector.angle_between(v1, v2) == 0`. -/
noncomputable def colinearRemoveIdx (points : List (ℚ × ℚ)) : List ℕ :=
  (List.range' 2 (points.length - 2)).filterMap (fun i =>
    let v1 := vsub2 (points.getD (i - 2) (0, 0)) (points.getD (i - 1) (0, 0))
    let v2 := vsub2 (points.getD (i - 1) (0, 0)) (points.getD i (0, 0))
    if Vector.are_same v1 v2 100 then some (i - 1)
    else if Vector.angle_between v1 v2 = Except.ok 0 then some (i - 1)
    else none)

/-- The indices marked for removal by the second pass of
`remove_colinear_pts` (`utility.py` lines 202-206): for each
`i in range(1, len(points))`, the index `i` is marked when
`norm(points[i] - points[i-1]) == 0` (an exact-zero-distance duplicate of
its predecessor). -/
def dupRemoveIdx (points : List (ℚ × ℚ)) : List ℕ :=
  (List.range' 1 (points.length - 1)).filterMap (fun i =>
    if normQ (vsub2 (points.getD i (0, 0)) (points.getD (i - 1) (0, 0))) = 0 then some i
    else none)

/-- Model of `remove_colinear_pts(points)` (`utility.py` lines 188-209):
delete the first-pass (colinearity) indices — computed against the original
sequence — in one `np.delete`, then delete the second-pass (consecutive
duplicate) indices from the result. -/
noncomputable def remove_colinear_pts (points : List (ℚ × ℚ)) : List (ℚ × ℚ) :=
  npDelete (npDelete points (colinearRemoveIdx points))
           (dupRemoveIdx (npDelete points (colinearRemoveIdx points)))

/-- The geometry classes used as `filter_obj`; only `shapely.geometry.Polygon`
occurs in the source (`get_all_component_bounds`'s default). -/
inductive PyClass where
  | Polygon
deriving DecidableEq

/-- Python value as seen by the Geometry Aggregator:
a terminal shapely geometry (`geom`, carrying its exterior coordinates —
the geometries relevant to the claims are Polygons), a Python `dict`
(`entries`, in insertion order), a Python `set` (the result of the set
comprehension in `get_all_geoms`, modelled as the list of the
comprehension's results; element hashability and deduplication are not
modelled — with shapely 1.x building a set of geometries would itself raise
`TypeError`, which, like the modelled set value, is not a mapping and leads
to the same downstream refusal), a component-like object (`comp`, carrying
the dict its `get_all_geom()` returns), or Python `None` (`pyNone`). -/
inductive PyVal where
  | geom (pts : List (ℚ × ℚ))
  | dict (entries : List (String × PyVal))
  | set (elems : List PyVal)
  | comp (geoms : PyVal)
  | pyNone

/-- The dotted-path helper defined inside `get_all_geoms`:
`root_name + '.' + name if not (root_name == '') else name`. -/
def new_name (root_name name : String) : String :=
  if root_name = "" then name else root_name ++ "." ++ name

mutual

/-- Model of `get_all_geoms(obj, func=lambda x: x, root_name='components')`
(`utility.py` lines 61-117; the `func` parameter is unused by the live code).
Component-like objects return their own geometry dict; a terminal
`BaseGeometry` is returned as-is; a `Mapping` evaluates the *set*
comprehension `{get_all_geoms(sub_obj, root_name=new_name(name)) for name,
sub_obj in obj.items()}` — a set, not a dict, so the entry names are
discarded; anything else logs a debug warning and returns `None`. -/
def get_all_geoms (obj : PyVal) (root_name : String) : PyVal :=
  match obj with
  | PyVal.comp g => g
  | PyVal.geom pts => PyVal.geom pts
  | PyVal.dict entries => PyVal.set (get_all_geoms_entries entries root_name)
  | _ => PyVal.pyNone

/-- The list of results of the set comprehension inside `get_all_geoms`,
in iteration (insertion) order of the dict. -/
def get_all_geoms_entries (entries : List (String × PyVal)) (root_name : String) : List PyVal :=
  match entries with
  | [] => []
  | (name, sub_obj) :: rest =>
      get_all_geoms sub_obj (new_name root_name name) :: get_all_geoms_entries rest root_name

end

/-- Model of `isinstance(obj, filter_obj)` for the geometry classes. -/
def isinstancePy (obj : PyVal) (c : PyClass) : Bool :=
  match c, obj with
  | PyClass.Polygon, PyVal.geom _ => true
  | PyClass.Polygon, _ => false

/-- The loop body of `flatten_all_filter` (`utility.py` lines 131-144) over
the entries of a dict: a dict-valued entry is recursed into (the source
calls `flatten_all_filter(obj, filter_obj)`, whose `assert isinstance(obj,
dict)` trivially passes there, so the recursion goes straight back to this
loop); otherwise the value is kept when `filter_obj` is `None` or when it
is an instance of `filter_obj`, and skipped (with a diagnostic `print`)
when it fails the filter. -/
def flattenEntries (entries : List (String × PyVal)) (filter_obj : Option PyClass) :
    Except PyErr (List PyVal) :=
  match entries with
  | [] => Except.ok []
  | (_, PyVal.dict sub) :: rest => do
      let r1 ← flattenEntries sub filter_obj
      let r2 ← flattenEntries rest filter_obj
      Except.ok (r1 ++ r2)
  | (_, obj) :: rest =>
      match filter_obj with
      | Option.none => do
          let r ← flattenEntries rest filter_obj
          Except.ok (obj :: r)
      | some c =>
          if isinstancePy obj c then do
            let r ← flattenEntries rest filter_obj
            Except.ok (obj :: r)
          else flattenEntries rest filter_obj

/-- Model of `flatten_all_filter(components, filter_obj=None)`
(`utility.py` lines 120-144): `assert isinstance(components, dict)` —
any non-dict argument (in particular the set produced by `get_all_geoms`)
raises `AssertionError` — then flatten the entries as in `flattenEntries`. -/
def flatten_all_filter (components : PyVal) (filter_obj : Option PyClass) :
    Except PyErr (List PyVal) :=
  match components with
  | PyVal.dict entries => flattenEntries entries filter_obj
  | _ => Except.error PyErr.assertionError

/-- Exterior coordinates of a terminal geometry (and `[]` on non-geometries,
which `mpBounds` rejects beforehand). -/
def polyPts (v : PyVal) : List (ℚ × ℚ) :=
  match v with
  | PyVal.geom pts => pts
  | _ => []

/-- Model of `MultiPolygon(shapes).bounds`: constructing a `MultiPolygon`
from a non-polygon raises (`typeError`); the `.bounds` of the empty
multipolygon is the empty tuple `()`, so unpacking it into
`(x_min, y_min, x_max, y_max)` raises `ValueError` (`valueError`);
otherwise the bounds are the min/max of all coordinates. -/
def mpBounds (shapes : List PyVal) : Except PyErr (ℚ × ℚ × ℚ × ℚ) :=
  if shapes.all (fun s => isinstancePy s PyClass.Polygon) then
    match (shapes.map polyPts).flatten with
    | [] => Except.error PyErr.valueError
    | p :: rest =>
        Except.ok (rest.foldl (fun a q => min a q.1) p.1,
                   rest.foldl (fun a q => min a q.2) p.2,
                   rest.foldl (fun a q => max a q.1) p.1,
                   rest.foldl (fun a q => max a q.2) p.2)
  else Except.error PyErr.typeError

/-- Model of `get_all_component_bounds(components, filter_obj=Polygon)`
(`utility.py` lines 147-166): `assert isinstance(components, dict)`, then
`components = get_all_geoms(components)` (with the default
`root_name='components'`), then `components = flatten_all_filter(components,
filter_obj=filter_obj)`, then unpack `MultiPolygon(components).bounds`. -/
def get_all_component_bounds (components : PyVal) (filter_obj : Option PyClass) :
    Except PyErr (ℚ × ℚ × ℚ × ℚ) :=
  match components with
  | PyVal.dict entries =>
      (match flatten_all_filter (get_all_geoms (PyVal.dict entries) ("components"))
               filter_obj with
       | Except.ok flat => mpBounds flat
       | Except.error e => Except.error e)
  | _ => Except.error PyErr.assertionError

/-! ## Theorems -/

/-- Claim C1 (code bug).  The `Mapping` branch of `get_all_geoms` evaluates a
Python *set* comprehension (`utility.py` line 97), not a dict comprehension:
for a mapping input the function returns a set of the recursed values with
the entry names discarded, never the name-keyed mapping promised by its own
docstring ("Get a dict of dict of all shapely objects"), by the commented-out
dict-building body below it, and by its caller `flatten_all_filter`, which
asserts the result is a dict.  Concretely, `{'a': <unit square>}` yields the
set containing just the square. -/
theorem get_all_geoms_mapping_yields_set :
    get_all_geoms (PyVal.dict [(("a"), PyVal.geom [(0, 0), (1, 0), (1, 1), (0, 1)])])
        ("components")
      = PyVal.set [PyVal.geom [(0, 0), (1, 0), (1, 1), (0, 1)]]
    ∧ ∀ (entries : List (String × PyVal)) (root_name : String)
        (d : List (String × PyVal)),
        get_all_geoms (PyVal.dict entries) root_name ≠ PyVal.dict d := by
  constructor
  · rfl
  · intro entries root_name d
    simp [get_all_geoms]

/-- Claim C2 (code bug).  On the nested collection holding the two unit
squares (0,0)-(1,1) and (2,2)-(3,3), `get_all_component_bounds` does not
return `(0, 0, 3, 3)`: `get_all_geoms` hands `flatten_all_filter` a set
instead of a dict (see `get_all_geoms_mapping_yields_set`), so its
`assert isinstance(components, dict)` raises `AssertionError` (with
shapely 1.x a `TypeError` for unhashable polygons would be raised even
earlier while building the set — either way no bounds are produced). -/
theorem get_all_component_bounds_two_squares_crashes :
    get_all_component_bounds
        (PyVal.dict [(("a"), PyVal.geom [(0, 0), (1, 0), (1, 1), (0, 1)]),
                     (("b"), PyVal.geom [(2, 2), (3, 2), (3, 3), (2, 3)])])
        (some PyClass.Polygon)
      = Except.error PyErr.assertionError := by
  rfl

/-- Claim C3 (corrected).  On the empty mapping `get_all_component_bounds`
does fail rather than returning a zero box, but the failure is the
`AssertionError` from `flatten_all_filter`'s `isinstance(..., dict)` check
(`get_all_geoms` returns a set); there is no dedicated empty-result error
anywhere in the code. -/
theorem get_all_component_bounds_empty_fails_assertion :
    get_all_component_bounds (PyVal.dict []) (some PyClass.Polygon)
      = Except.error PyErr.assertionError
    ∧ ∀ r, get_all_component_bounds (PyVal.dict []) (some PyClass.Polygon)
        ≠ Except.ok r := by
  refine ⟨rfl, ?_⟩
  intro r h
  simp [get_all_component_bounds, get_all_geoms, get_all_geoms_entries,
        flatten_all_filter] at h

/-- Counterexample to claim C3 as stated: the failure on the empty mapping is
not an explicit empty-result error but the generic dict-type assertion crash —
a non-empty collection of one polygon hits exactly the same `AssertionError`,
so the failure has nothing to do with emptiness. -/
theorem get_all_component_bounds_empty_assertion_cex :
    get_all_component_bounds (PyVal.dict []) (some PyClass.Polygon)
      = Except.error PyErr.assertionError
    ∧ get_all_component_bounds
        (PyVal.dict [(("a"), PyVal.geom [(0, 0), (1, 0), (1, 1), (0, 1)])])
        (some PyClass.Polygon)
      = Except.error PyErr.assertionError := ⟨rfl, rfl⟩

/-- Claim C8 (confirmed).  `Vector.rotate(v, 0) = v` and
`Vector.rotate(Vector.rotate(v, θ), -θ) = v` — exactly, in the exact-real
model of the float formula. -/
theorem rotate_identity_and_round_trip :
    ∀ (v : ℝ × ℝ) (θ : ℝ),
      Vector.rotate v 0 = v ∧ Vector.rotate (Vector.rotate v θ) (-θ) = v := by
  intro v θ
  obtain ⟨x, y⟩ := v
  have h := Real.sin_sq_add_cos_sq θ
  constructor
  · simp [Vector.rotate]
  · simp only [Vector.rotate, Real.cos_neg, Real.sin_neg, Prod.mk.injEq]
    constructor
    · linear_combination x * h
    · linear_combination y * h

/-- Claim C10 (confirmed).  `Vector.normed` divides the type alias `Vec2D`
by `norm(Vec2D)` instead of using its argument, so every call raises
(`TypeError`) and no input yields a normed vector. -/
theorem normed_always_raises :
    ∀ vec : List ℚ, Vector.normed vec = Except.error PyErr.typeError ∧
      ∀ u : List ℝ, Vector.normed vec ≠ Except.ok u := by
  intro vec
  refine ⟨rfl, ?_⟩
  intro u h
  simp [Vector.normed] at h

/-- The unrolled `vec_unit_planar` satisfies the recursion of the source
verbatim: on a three-component chopped vector it equals the recursive call
`vec_unit_planar` on the first two components followed by appending the
third. -/
theorem vec_unit_planar_source_equation (vector : List ℚ) :
    vec_unit_planar vector =
      match array_chop vector 0 0 100 with
      | [x, y] => vec_unit_planar_core x y
      | [x, y, z] =>
          match vec_unit_planar [x, y] with
          | Except.ok v2 => Except.ok (v2 ++ [(z : ℝ)])
          | Except.error e => Except.error e
      | _ => Except.error PyErr.exception := rfl

/-- The sum of squares of a pair, unfolded. -/
theorem sumSq_pair (x y : ℚ) : sumSq [x, y] = x ^ 2 + y ^ 2 := by
  simp [sumSq]

/-- The norm of the zero pair is zero. -/
theorem normQ_pair_zero : normQ [(0 : ℚ), 0] = 0 := by
  simp [normQ, sumSq]

/-- Evaluation of `two_points_described` on a coincident pair of points:
the displacement is exactly zero, its norm is zero, both components of the
unit vector are `0/0 = NaN`, the tangent is the rotation/rounding of NaN
(still NaN), the zero-length diagnostic fires, and no exception is
raised. -/
theorem two_points_described_coincident_eval (p : ℚ × ℚ) :
    Vector.two_points_described [p, p]
      = Except.ok ⟨(0, 0), (EF.nan, EF.nan), (EF.nan, EF.nan), true⟩ := by
  have hz : Vector.is_zero [(0 : ℚ), 0] 100 := by
    rw [Vector.is_zero, normQ_pair_zero]
    norm_num [eps]
  simp [Vector.two_points_described, sub_self, normQ_pair_zero, EF.div,
        rotateEF, EF.mul, EF.sub, EF.add, EF.round11, hz]

/-- Claim C4 (corrected).  For coincident points `two_points_described`
emits the diagnostic and returns without failing, and the displacement
vector is the zero vector; but the unit direction and the tangent are NaN
vectors (`0/0`), not zero vectors. -/
theorem two_points_described_coincident_nan (p : ℚ × ℚ) :
    Vector.two_points_described [p, p]
      = Except.ok ⟨(0, 0), (EF.nan, EF.nan), (EF.nan, EF.nan), true⟩ :=
  two_points_described_coincident_eval p

/-- Counterexample to claim C4 as stated: at the coincident input
`[(0,0), (0,0)]` the returned unit direction is the NaN vector, and NaN is
not the float zero — the claim's "returns the degenerate zero vectors for
… the unit direction and the tangent" fails. -/
theorem two_points_described_coincident_cex :
    Vector.two_points_described [((0 : ℚ), (0 : ℚ)), (0, 0)]
      = Except.ok ⟨(0, 0), (EF.nan, EF.nan), (EF.nan, EF.nan), true⟩
    ∧ EF.nan ≠ EF.val 0 := by
  refine ⟨two_points_described_coincident_eval _, ?_⟩
  intro h
  exact EF.noConfusion h

/-- Claim C5 (amended).  `array_chop` preserves length and acts pointwise:
a component within `machine_tol·eps + rtol·|zero|` of `zero` is replaced by
the literal float `0` — not by the value of the `zero` argument — and every
other component is unchanged; and `array_chop([1e-20, 1.0], zero=0)`
returns `[0.0, 1.0]`. -/
theorem array_chop_pointwise_literal_zero :
    (∀ (vec : List ℚ) (zero rtol machine_tol : ℚ) (i : ℕ), i < vec.length →
        (array_chop vec zero rtol machine_tol).getD i 0
          = if |vec.getD i 0 - zero| ≤ machine_tol * eps + rtol * |zero| then 0
            else vec.getD i 0)
    ∧ (∀ vec zero rtol machine_tol,
        (array_chop vec zero rtol machine_tol).length = vec.length)
    ∧ array_chop [1 / 10 ^ 20, 1] 0 0 100 = [0, 1] := by
  refine ⟨?_, ?_, by norm_num [array_chop, isclose, eps, abs_le]⟩
  · intro vec zero rtol machine_tol i hi
    unfold array_chop
    rw [List.getD_eq_getElem _ _ (by simpa using hi), List.getElem_map,
        List.getD_eq_getElem _ _ hi]
    simp [isclose]
  · intro vec zero rtol machine_tol
    simp [array_chop]

/-- Witness for `array_chop_pointwise_literal_zero`: instantiating the
pointwise part at the vector `[5]` with `zero = 5` and index `0`. -/
theorem array_chop_pointwise_literal_zero_witness :
    (0 : ℕ) < ([(5 : ℚ)]).length ∧
      (array_chop [(5 : ℚ)] 5 0 100).getD 0 0
        = if |([(5 : ℚ)]).getD 0 0 - 5| ≤ 100 * eps + 0 * |(5 : ℚ)| then 0
          else ([(5 : ℚ)]).getD 0 0 :=
  ⟨by decide, array_chop_pointwise_literal_zero.1 [5] 5 0 100 0 (by decide)⟩

/-- Counterexample to claim C5 as stated: with `zero = 1` the component `1`
is within tolerance of `zero` but is replaced by the literal `0`, not by the
value `1` of the `zero` argument. -/
theorem array_chop_zero_arg_cex :
    array_chop [(1 : ℚ)] 1 0 100 = [0] ∧ ((0 : ℚ) ≠ 1) := by
  refine ⟨by norm_num [array_chop, isclose, eps, abs_le], by norm_num⟩

/-- The sum of squares of a vector is non-negative. -/
theorem sumSq_nonneg (v : List ℚ) : 0 ≤ sumSq v := by
  unfold sumSq
  apply List.sum_nonneg
  intro x hx
  obtain ⟨y, _, rfl⟩ := List.mem_map.mp hx
  positivity

/-- One chop step is idempotent on a component: a chopped-to-zero component
stays zero, an unchanged component stays outside the mask. -/
theorem chop_component_idem (a : ℚ) :
    (if isclose (if isclose a 0 0 (100 * eps) then 0 else a) 0 0 (100 * eps) then (0 : ℚ)
     else (if isclose a 0 0 (100 * eps) then 0 else a))
      = (if isclose a 0 0 (100 * eps) then 0 else a) := by
  by_cases h : isclose a 0 0 (100 * eps) = true
  · simp [h]
  · simp only [Bool.not_eq_true] at h
    simp [h]

/-- `array_chop` with its default arguments is idempotent. -/
theorem array_chop_idem (v : List ℚ) :
    array_chop (array_chop v 0 0 100) 0 0 100 = array_chop v 0 0 100 := by
  simp only [array_chop, List.map_map]
  apply List.map_congr_left
  intro a _
  exact chop_component_idem a

/-- The first two components of a three-component chopped vector are already
chopped, so chopping the pair leaves it unchanged. -/
theorem array_chop_pair_fixed (v : List ℚ) (x y z : ℚ)
    (hc : array_chop v 0 0 100 = [x, y, z]) :
    array_chop [x, y] 0 0 100 = [x, y] := by
  have hi := array_chop_idem v
  rw [hc] at hi
  simp only [array_chop, List.map_cons, List.map_nil, List.cons.injEq, and_true] at hi ⊢
  exact ⟨hi.1, hi.2.1⟩

/-- Evaluation of `vec_unit_planar` when the chopped input has two
components. -/
theorem vec_unit_planar_eval_two (v : List ℚ) (x y : ℚ)
    (hc : array_chop v 0 0 100 = [x, y]) :
    vec_unit_planar v = vec_unit_planar_core x y := by
  unfold vec_unit_planar
  rw [hc]

/-- Evaluation of `vec_unit_planar` when the chopped input has three
components: the recursive call on the first two followed by appending the
third. -/
theorem vec_unit_planar_eval_three (v : List ℚ) (x y z : ℚ)
    (hc : array_chop v 0 0 100 = [x, y, z]) :
    vec_unit_planar v =
      match vec_unit_planar_core x y with
      | Except.ok v2 => Except.ok (v2 ++ [(z : ℝ)])
      | Except.error e => Except.error e := by
  unfold vec_unit_planar
  simp only [hc]
  rw [array_chop_pair_fixed v x y z hc]

/-- The two-component branch never raises: both of its branches return
`ok`. -/
theorem vec_unit_planar_core_ok (x y : ℚ) :
    ∃ u, vec_unit_planar_core x y = Except.ok u := by
  unfold vec_unit_planar_core
  split
  · exact ⟨_, rfl⟩
  · exact ⟨_, rfl⟩

/-- Evaluation of `vec_unit_planar` when the input length is neither 2
nor 3: the `Exception` is raised. -/
theorem vec_unit_planar_error_eval (v : List ℚ) (h2 : v.length ≠ 2) (h3 : v.length ≠ 3) :
    vec_unit_planar v = Except.error PyErr.exception := by
  have hlen : (array_chop v 0 0 100).length = v.length := by simp [array_chop]
  rcases hc : array_chop v 0 0 100 with _ | ⟨x, _ | ⟨y, _ | ⟨z, _ | ⟨w, r⟩⟩⟩⟩
  · unfold vec_unit_planar; rw [hc]
  · unfold vec_unit_planar; rw [hc]
  · rw [hc] at hlen; simp at hlen; exact absurd hlen.symm h2
  · rw [hc] at hlen; simp at hlen; exact absurd hlen.symm h3
  · unfold vec_unit_planar; rw [hc]

/-- Claim C7 (confirmed).  `vec_unit_planar` raises its
`Exception('You did not give a 2 or 3 vec')` (the spec's InvalidDimension)
exactly when the input length is neither 2 nor 3; and a 2-component vector
whose chopped norm is zero is not an error: the chopped (zeroed) vector is
returned unchanged, with only a debug diagnostic. -/
theorem vec_unit_planar_error_iff_bad_length :
    (∀ v : List ℚ,
        vec_unit_planar v = Except.error PyErr.exception ↔ v.length ≠ 2 ∧ v.length ≠ 3)
    ∧ (∀ v : List ℚ, v.length = 2 → sumSq (array_chop v 0 0 100) = 0 →
        vec_unit_planar v = Except.ok ((array_chop v 0 0 100).map (fun q => (q : ℝ)))) := by
  have hlen : ∀ v : List ℚ, (array_chop v 0 0 100).length = v.length := fun v => by
    simp [array_chop]
  constructor
  · intro v
    constructor
    · intro h
      constructor
      · intro hv2
        have h2 : (array_chop v 0 0 100).length = 2 := by rw [hlen v, hv2]
        obtain ⟨x, y, hc⟩ := List.length_eq_two.mp h2
        rw [vec_unit_planar_eval_two v x y hc] at h
        obtain ⟨u, hu⟩ := vec_unit_planar_core_ok x y
        rw [hu] at h
        exact Except.noConfusion h
      · intro hv3
        have h3 : (array_chop v 0 0 100).length = 3 := by rw [hlen v, hv3]
        obtain ⟨x, y, z, hc⟩ := List.length_eq_three.mp h3
        rw [vec_unit_planar_eval_three v x y z hc] at h
        obtain ⟨u, hu⟩ := vec_unit_planar_core_ok x y
        rw [hu] at h
        exact Except.noConfusion h
    · intro hcon
      exact vec_unit_planar_error_eval v hcon.1 hcon.2
  · intro v hv2 hs
    have h2 : (array_chop v 0 0 100).length = 2 := by rw [hlen v, hv2]
    obtain ⟨x, y, hc⟩ := List.length_eq_two.mp h2
    rw [vec_unit_planar_eval_two v x y hc, hc]
    unfold vec_unit_planar_core
    rw [hc] at hs
    rw [if_pos hs]
    simp

/-- Witness for `vec_unit_planar_error_iff_bad_length`: the empty vector
raises the dimension exception, and the zero pair (zero chopped norm) is
returned unchanged. -/
theorem vec_unit_planar_error_iff_bad_length_witness :
    (([] : List ℚ).length ≠ 2 ∧ ([] : List ℚ).length ≠ 3
      ∧ vec_unit_planar [] = Except.error PyErr.exception)
    ∧ (([(0 : ℚ), 0]).length = 2
      ∧ sumSq (array_chop [(0 : ℚ), 0] 0 0 100) = 0
      ∧ vec_unit_planar [(0 : ℚ), 0]
          = Except.ok ((array_chop [(0 : ℚ), 0] 0 0 100).map (fun q => (q : ℝ)))) := by
  have hs : sumSq (array_chop [(0 : ℚ), 0] 0 0 100) = 0 := by
    norm_num [array_chop, isclose, eps, abs_le, sumSq]
  refine ⟨⟨by decide, by decide, ?_⟩, ⟨by decide, hs, ?_⟩⟩
  · exact (vec_unit_planar_error_iff_bad_length.1 []).mpr ⟨by decide, by decide⟩
  · exact vec_unit_planar_error_iff_bad_length.2 [0, 0] (by decide) hs

/-- The norm of the planar-normalized pair is exactly 1 when the chopped
sum of squares is nonzero. -/
theorem normR_unit (cx cy : ℚ) (hs : sumSq [cx, cy] ≠ 0) :
    normR [(cx : ℝ) / normQ [cx, cy], (cy : ℝ) / normQ [cx, cy]] = 1 := by
  have hpos : (0 : ℝ) < ((sumSq [cx, cy] : ℚ) : ℝ) := by
    have h1 : (0 : ℚ) < sumSq [cx, cy] := lt_of_le_of_ne (sumSq_nonneg _) (Ne.symm hs)
    exact_mod_cast h1
  have hn : normQ [cx, cy] = Real.sqrt ((sumSq [cx, cy] : ℚ) : ℝ) := rfl
  have hsq : (normQ [cx, cy]) ^ 2 = ((sumSq [cx, cy] : ℚ) : ℝ) := by
    rw [hn]; exact Real.sq_sqrt (le_of_lt hpos)
  have hcast : ((sumSq [cx, cy] : ℚ) : ℝ) = (cx : ℝ) ^ 2 + (cy : ℝ) ^ 2 := by
    rw [sumSq_pair]; push_cast; ring
  unfold normR
  rw [show (([(cx : ℝ) / normQ [cx, cy], (cy : ℝ) / normQ [cx, cy]].map
        (fun x => x ^ 2)).sum)
      = ((cx : ℝ) ^ 2 + (cy : ℝ) ^ 2) / (normQ [cx, cy]) ^ 2 from by
    simp [div_pow]; ring]
  rw [hsq, ← hcast, div_self (ne_of_gt hpos), Real.sqrt_one]

/-- Claim C6 (amended).  For a 2-component vector with nonzero chopped norm,
the norm of `vec_unit_planar(v)` is exactly 1; for a 3-component vector the
third output component equals the *chopped* input z-component (so a
z-component within `100·eps` of zero is replaced by exactly `0`; any other
z-component is returned unchanged). -/
theorem vec_unit_planar_norm_one_and_chopped_z :
    (∀ x y : ℚ, sumSq (array_chop [x, y] 0 0 100) ≠ 0 →
        ∃ u, vec_unit_planar [x, y] = Except.ok u ∧ normR u = 1)
    ∧ (∀ x y z : ℚ, ∃ u, vec_unit_planar [x, y, z] = Except.ok u ∧
        u.getLast? = some (((if isclose z 0 0 (100 * eps) then (0 : ℚ) else z) : ℚ) : ℝ)) := by
  constructor
  · intro x y hs
    obtain ⟨cx, cy, hc⟩ := List.length_eq_two.mp
      (show (array_chop [x, y] 0 0 100).length = 2 by simp [array_chop])
    rw [hc] at hs
    have hcore : vec_unit_planar_core cx cy
        = Except.ok [(cx : ℝ) / normQ [cx, cy], (cy : ℝ) / normQ [cx, cy]] := by
      unfold vec_unit_planar_core
      rw [if_neg hs]
    refine ⟨_, by rw [vec_unit_planar_eval_two _ cx cy hc, hcore], normR_unit cx cy hs⟩
  · intro x y z
    have hc : array_chop [x, y, z] 0 0 100
        = [if isclose x 0 0 (100 * eps) then 0 else x,
           if isclose y 0 0 (100 * eps) then 0 else y,
           if isclose z 0 0 (100 * eps) then 0 else z] := by
      simp [array_chop]
    obtain ⟨u2, hu2⟩ := vec_unit_planar_core_ok
      (if isclose x 0 0 (100 * eps) then 0 else x)
      (if isclose y 0 0 (100 * eps) then 0 else y)
    refine ⟨u2 ++ [(((if isclose z 0 0 (100 * eps) then (0 : ℚ) else z) : ℚ) : ℝ)], ?_, ?_⟩
    · rw [vec_unit_planar_eval_three _ _ _ _ hc, hu2]
    · exact List.getLast?_concat _

/-- Witness for `vec_unit_planar_norm_one_and_chopped_z`: the vector (3,4)
has nonzero chopped norm and normalizes to a unit vector; and (3,4,7) keeps
its (chopped) z-component. -/
theorem vec_unit_planar_norm_one_and_chopped_z_witness :
    (sumSq (array_chop [(3 : ℚ), 4] 0 0 100) ≠ 0
      ∧ ∃ u, vec_unit_planar [(3 : ℚ), 4] = Except.ok u ∧ normR u = 1)
    ∧ ∃ u, vec_unit_planar [(3 : ℚ), 4, 7] = Except.ok u ∧
        u.getLast? = some (((if isclose 7 0 0 (100 * eps) then (0 : ℚ) else 7) : ℚ) : ℝ) := by
  have hs : sumSq (array_chop [(3 : ℚ), 4] 0 0 100) ≠ 0 := by
    norm_num [array_chop, isclose, eps, abs_le, sumSq]
  exact ⟨⟨hs, vec_unit_planar_norm_one_and_chopped_z.1 3 4 hs⟩,
         vec_unit_planar_norm_one_and_chopped_z.2 3 4 7⟩

/-- Counterexample to claim C6 as stated: the z-component is *not* returned
unchanged — for the input `[3, 4, 1e-20]` the chop replaces the z-component
by `0`, and `0 ≠ 1e-20`. -/
theorem vec_unit_planar_z_chopped_cex :
    vec_unit_planar [3, 4, 1 / 10 ^ 20] = Except.ok [3 / 5, 4 / 5, 0]
    ∧ (0 : ℝ) ≠ ((1 / 10 ^ 20 : ℚ) : ℝ) := by
  constructor
  · have hc : array_chop [(3 : ℚ), 4, 1 / 10 ^ 20] 0 0 100 = [3, 4, 0] := by
      norm_num [array_chop, isclose, eps, abs_le]
    rw [vec_unit_planar_eval_three _ 3 4 0 hc]
    have hs : sumSq [(3 : ℚ), 4] ≠ 0 := by norm_num [sumSq]
    have hn : normQ [(3 : ℚ), 4] = 5 := by
      unfold normQ
      rw [show ((sumSq [(3 : ℚ), 4] : ℚ) : ℝ) = 5 ^ 2 by norm_num [sumSq]]
      exact Real.sqrt_sq (by norm_num)
    have hcore : vec_unit_planar_core 3 4 = Except.ok [(3 : ℝ) / 5, (4 : ℝ) / 5] := by
      unfold vec_unit_planar_core
      rw [if_neg hs, hn]
      norm_num
    rw [hcore]
    norm_num
  · norm_num

/-- `npDeleteFrom` only ever drops elements, preserving the order of the
rest: its result is a sublist of its input. -/
theorem npDeleteFrom_sublist (idx : List ℕ) (s : ℕ) (l : List α) :
    (npDeleteFrom idx s l).Sublist l := by
  induction l generalizing s with
  | nil => simp [npDeleteFrom]
  | cons a t ih =>
    simp only [npDeleteFrom]
    split
    · exact List.Sublist.cons a (ih (s + 1))
    · exact List.Sublist.cons₂ a (ih (s + 1))

/-- If the position of the last element is not listed for deletion, the last
element survives `npDeleteFrom`. -/
theorem npDeleteFrom_getLast? (idx : List ℕ) (l : List α) :
    ∀ s : ℕ, (s + l.length - 1) ∉ idx →
      (npDeleteFrom idx s l).getLast? = l.getLast? := by
  induction l with
  | nil => intro s _; rfl
  | cons a t ih =>
    intro s h
    cases t with
    | nil =>
      have hs : s ∉ idx := by simpa using h
      simp [npDeleteFrom, hs]
    | cons b u =>
      have h2 : (s + 1 + (b :: u).length - 1) ∉ idx := by
        have he : s + 1 + (b :: u).length - 1 = s + (a :: b :: u).length - 1 := by
          simp only [List.length_cons]
          omega
        rw [he]
        exact h
      have ihr := ih (s + 1) h2
      rw [npDeleteFrom]
      split
      · rw [ihr, List.getLast?_cons_cons]
      · rw [List.getLast?_cons_cons]
        rcases hm : npDeleteFrom idx (s + 1) (b :: u) with _ | ⟨c, m⟩
        · rw [hm] at ihr
          exact absurd ihr.symm (by simp)
        · rw [hm] at ihr
          rw [List.getLast?_cons_cons]
          exact ihr

/-- If position 0 is not listed for deletion, the head survives
`npDelete`. -/
theorem npDelete_head? (l : List α) (idx : List ℕ) (h0 : 0 ∉ idx) (hl : l ≠ []) :
    (npDelete l idx).head? = l.head? := by
  cases l with
  | nil => exact absurd rfl hl
  | cons a t => simp [npDelete, npDeleteFrom, h0]

/-- The colinearity pass of `remove_colinear_pts` only ever marks interior
indices: every marked index `j` satisfies `1 ≤ j` and `j + 1 < len`
(the loop ranges over `i in range(2, len)` and marks `i - 1`). -/
theorem colinearRemoveIdx_interior (points : List (ℚ × ℚ)) :
    ∀ j ∈ colinearRemoveIdx points, 1 ≤ j ∧ j + 1 < points.length := by
  intro j hj
  unfold colinearRemoveIdx at hj
  rw [List.mem_filterMap] at hj
  obtain ⟨i, hi, hf⟩ := hj
  rw [List.mem_range'_1] at hi
  dsimp only at hf
  split_ifs at hf with h1 h2
  · obtain rfl : i - 1 = j := Option.some.inj hf
    omega
  · obtain rfl : i - 1 = j := Option.some.inj hf
    omega

/-- Claim C9 (confirmed).  For a sequence of at least 3 points, the
colinearity check of `remove_colinear_pts` marks only interior indices
(1 … len−2); consequently the first and the last point survive that pass
unchanged; and the final output preserves the relative order of the
remaining points (it is a sublist of the input). -/
theorem remove_colinear_pts_interior_only (points : List (ℚ × ℚ))
    (h3 : 3 ≤ points.length) :
    (∀ j ∈ colinearRemoveIdx points, 1 ≤ j ∧ j + 1 < points.length)
    ∧ (npDelete points (colinearRemoveIdx points)).head? = points.head?
    ∧ (npDelete points (colinearRemoveIdx points)).getLast? = points.getLast?
    ∧ (remove_colinear_pts points).Sublist points := by
  have hint := colinearRemoveIdx_interior points
  refine ⟨hint, ?_, ?_, ?_⟩
  · apply npDelete_head?
    · intro h0
      have := hint 0 h0
      omega
    · intro hnil
      rw [hnil] at h3
      simp at h3
  · unfold npDelete
    apply npDeleteFrom_getLast?
    intro hmem
    have := hint _ hmem
    omega
  · unfold remove_colinear_pts npDelete
    exact (npDeleteFrom_sublist _ _ _).trans (npDeleteFrom_sublist _ _ _)

/-- Witness for `remove_colinear_pts_interior_only`, instantiated at the
three colinear points (0,0), (1,0), (2,0). -/
theorem remove_colinear_pts_interior_only_witness :
    3 ≤ ([((0 : ℚ), (0 : ℚ)), (1, 0), (2, 0)] : List (ℚ × ℚ)).length ∧
    ((∀ j ∈ colinearRemoveIdx [((0 : ℚ), (0 : ℚ)), (1, 0), (2, 0)],
        1 ≤ j ∧ j + 1 < ([((0 : ℚ), (0 : ℚ)), (1, 0), (2, 0)] : List (ℚ × ℚ)).length)
    ∧ (npDelete [((0 : ℚ), (0 : ℚ)), (1, 0), (2, 0)]
        (colinearRemoveIdx [((0 : ℚ), (0 : ℚ)), (1, 0), (2, 0)])).head?
        = ([((0 : ℚ), (0 : ℚ)), (1, 0), (2, 0)] : List (ℚ × ℚ)).head?
    ∧ (npDelete [((0 : ℚ), (0 : ℚ)), (1, 0), (2, 0)]
        (colinearRemoveIdx [((0 : ℚ), (0 : ℚ)), (1, 0), (2, 0)])).getLast?
        = ([((0 : ℚ), (0 : ℚ)), (1, 0), (2, 0)] : List (ℚ × ℚ)).getLast?
    ∧ (remove_colinear_pts [((0 : ℚ), (0 : ℚ)), (1, 0), (2, 0)]).Sublist
        [((0 : ℚ), (0 : ℚ)), (1, 0), (2, 0)]) :=
  ⟨by simp, remove_colinear_pts_interior_only _ (by simp)⟩
